import Mathlib

/-!
Verification of the ecosystem-benefit computation engine of the
Jaga-Pohon tree-inventory application.

The two biophysical calculators (`calculateCarbonMetrics` from
`services/carbonCalculator.ts` and `calculateEcosystemServices` from
`services/ecosystemServiceCalculator.ts`) are embedded over the real
numbers, with `Math.pow`, `Math.exp` and `Math.log` modelled by
`Real.rpow`, `Real.exp` and `Real.log`.

The dashboard aggregation (the `stats` memo of the `Dashboard`
component) operates only on stored record fields with exact
addition, comparison and `toFixed(2)` rounding, so it is embedded
over the rationals, which keeps every concrete computation
decidable.  Record assembly (`handleAddTree` in `App.tsx`) is
embedded with the `Date.now()` reading passed in explicitly as the
clock value of the call.
-/

namespace JagaPohon

/-- Proximity-to-building classification, as in `types.ts`:
`'None' | 'Near' | 'Far'`. -/
inductive ProximityToBuilding where
  | None
  | Near
  | Far
deriving DecidableEq, Repr

/-- Tree health condition, as in the `TreeCondition` enum. -/
inductive TreeCondition where
  | Healthy
  | Damaged
  | Dead
deriving DecidableEq, Repr

/-- Modelled from the spec: the string values of the `TreeCondition`
enum live in `types.ts`, which is not among the provided sources; the
spec's condition names `Healthy`, `Damaged`, `Dead` are used, matching
the dashboard example in the spec. -/
def TreeCondition.name : TreeCondition → String
  | .Healthy => "Healthy"
  | .Damaged => "Damaged"
  | .Dead => "Dead"

/-- The `CarbonMetrics` shape: biomass, stored carbon and sequestrated
CO2, all in kilograms. -/
structure CarbonMetrics (α : Type) where
  biomass : α
  carbonStored : α
  co2Sequestrated : α
deriving DecidableEq

/-- The `annualMonetaryValue` breakdown object. -/
structure AnnualMonetaryValue (α : Type) where
  total : α
  carbon : α
  stormwater : α
  airQuality : α
  energy : α
deriving DecidableEq

/-- The `EcosystemServices` shape. -/
structure EcosystemServices (α : Type) where
  stormwaterInterceptedLiters : α
  airPollutionRemovedGrams : α
  energySavingsIDR : α
  annualMonetaryValue : AnnualMonetaryValue α
deriving DecidableEq

/-- Average wood density (g/cm^3) for general tropical trees. -/
def WOOD_DENSITY : ℝ := 0.6

/-- Biomass to carbon conversion factor. -/
def CARBON_CONVERSION_FACTOR : ℝ := 0.47

/-- Carbon to CO2-equivalent conversion factor. -/
def CO2_CONVERSION_FACTOR : ℝ := 3.67

/-- Approximate USD to IDR exchange rate. -/
def USD_TO_IDR_RATE : ℝ := 16000

/-- Social cost of carbon per kg of CO2, in IDR. -/
def SOCIAL_COST_OF_CARBON_PER_KG_CO2_IDR : ℝ := 0.05 * USD_TO_IDR_RATE

/-- Value of managing stormwater runoff per liter, in IDR. -/
def STORMWATER_MANAGEMENT_COST_PER_LITER_IDR : ℝ := 0.002 * USD_TO_IDR_RATE

/-- Health savings per gram of removed air pollution, in IDR. -/
def AIR_POLLUTION_HEALTH_SAVINGS_PER_GRAM_IDR : ℝ := 0.08 * USD_TO_IDR_RATE

/-- Leaf-area allometry intercept. -/
def LEAF_AREA_PARAM_A : ℝ := -2.2

/-- Leaf-area allometry slope. -/
def LEAF_AREA_PARAM_B : ℝ := 1.8

/-- Annual rainfall interception per square meter of leaf area. -/
def RAINFALL_INTERCEPTION_LITERS_PER_M2_LEAF_AREA : ℝ := 180

/-- Annual air-pollution removal per square meter of leaf area. -/
def POLLUTION_REMOVAL_GRAMS_PER_M2_LEAF_AREA : ℝ := 1.5

/-- Embedding of `calculateCarbonMetrics` from
`services/carbonCalculator.ts`: the Chave et al. 2014 pantropical
allometric equation, with an all-zero degenerate branch for
non-positive inputs. -/
noncomputable def calculateCarbonMetrics (dbh height : ℝ) : CarbonMetrics ℝ :=
  if dbh ≤ 0 ∨ height ≤ 0 then
    { biomass := 0, carbonStored := 0, co2Sequestrated := 0 }
  else
    let biomass := 0.0673 * (WOOD_DENSITY * dbh ^ 2 * height) ^ (0.976 : ℝ)
    let carbonStored := biomass * CARBON_CONVERSION_FACTOR
    let co2Sequestrated := carbonStored * CO2_CONVERSION_FACTOR
    { biomass := biomass, carbonStored := carbonStored, co2Sequestrated := co2Sequestrated }

/-- Embedding of `calculateEcosystemServices` from
`services/ecosystemServiceCalculator.ts`. -/
noncomputable def calculateEcosystemServices (dbh : ℝ)
    (proximityToBuilding : ProximityToBuilding) : EcosystemServices ℝ :=
  if dbh ≤ 0 then
    { stormwaterInterceptedLiters := 0
      airPollutionRemovedGrams := 0
      energySavingsIDR := 0
      annualMonetaryValue :=
        { total := 0, carbon := 0, stormwater := 0, airQuality := 0, energy := 0 } }
  else
    let leafArea := Real.exp (LEAF_AREA_PARAM_A + LEAF_AREA_PARAM_B * Real.log dbh)
    let stormwaterInterceptedLiters :=
      leafArea * RAINFALL_INTERCEPTION_LITERS_PER_M2_LEAF_AREA
    let airPollutionRemovedGrams :=
      leafArea * POLLUTION_REMOVAL_GRAMS_PER_M2_LEAF_AREA
    let energySavingsIDR :=
      if proximityToBuilding = ProximityToBuilding.Near then
        (10 + dbh * 0.25) * USD_TO_IDR_RATE
      else 0
    let tempCarbonMetrics := calculateCarbonMetrics dbh (dbh * 0.5)
    let valueFromCarbon :=
      tempCarbonMetrics.co2Sequestrated * SOCIAL_COST_OF_CARBON_PER_KG_CO2_IDR
    let valueFromStormwater :=
      stormwaterInterceptedLiters * STORMWATER_MANAGEMENT_COST_PER_LITER_IDR
    let valueFromAirQuality :=
      airPollutionRemovedGrams * AIR_POLLUTION_HEALTH_SAVINGS_PER_GRAM_IDR
    let valueFromEnergy := energySavingsIDR
    let totalValue :=
      valueFromCarbon + valueFromStormwater + valueFromAirQuality + valueFromEnergy
    { stormwaterInterceptedLiters := stormwaterInterceptedLiters
      airPollutionRemovedGrams := airPollutionRemovedGrams
      energySavingsIDR := energySavingsIDR
      annualMonetaryValue :=
        { total := totalValue
          carbon := valueFromCarbon
          stormwater := valueFromStormwater
          airQuality := valueFromAirQuality
          energy := valueFromEnergy } }

/-- The `TreeData` record of `types.ts`, with its numeric fields over a
parameter type: the dashboard consumes it at `ℚ`, record assembly at
`ℝ`. The opaque `photo` payload is omitted. -/
structure TreeData (α : Type) where
  id : ℤ
  species : String
  dbh : α
  height : α
  condition : TreeCondition
  proximityToBuilding : ProximityToBuilding
  notes : String
  latitude : α
  longitude : α
  inventoryDate : String
  carbon : CarbonMetrics α
  ecosystemServices : EcosystemServices α
deriving DecidableEq

/-- The raw measurement handed to `handleAddTree`:
`Omit<TreeData, 'id' | 'carbon' | 'ecosystemServices'>`. -/
structure NewTreeData (α : Type) where
  species : String
  dbh : α
  height : α
  condition : TreeCondition
  proximityToBuilding : ProximityToBuilding
  notes : String
  latitude : α
  longitude : α
  inventoryDate : String
deriving DecidableEq

/-- Embedding of `handleAddTree` from `App.tsx`: computes the two
metric objects, builds a record whose id is the `Date.now()` reading
(passed here as `now`), and prepends it to the collection. -/
noncomputable def handleAddTree (now : ℤ) (newTreeData : NewTreeData ℝ)
    (prevTrees : List (TreeData ℝ)) : List (TreeData ℝ) :=
  { id := now
    species := newTreeData.species
    dbh := newTreeData.dbh
    height := newTreeData.height
    condition := newTreeData.condition
    proximityToBuilding := newTreeData.proximityToBuilding
    notes := newTreeData.notes
    latitude := newTreeData.latitude
    longitude := newTreeData.longitude
    inventoryDate := newTreeData.inventoryDate
    carbon := calculateCarbonMetrics newTreeData.dbh newTreeData.height
    ecosystemServices :=
      calculateEcosystemServices newTreeData.dbh newTreeData.proximityToBuilding } :: prevTrees

/-- A session of record-assembly calls: each call carries its
`Date.now()` reading and its measurement, applied to the collection in
order, starting from the empty collection. -/
noncomputable def addTreeSession (calls : List (ℤ × NewTreeData ℝ)) : List (TreeData ℝ) :=
  calls.foldl (fun trees call => handleAddTree call.1 call.2 trees) []

/-- JavaScript `parseFloat(x.toFixed(2))` on an exact value: round to
two decimal places, ties toward positive infinity. -/
def toFixed2 (x : ℚ) : ℚ := ((⌊x * 100 + 1 / 2⌋ : ℤ) : ℚ) / 100

/-- One bar of the species-distribution chart. -/
structure SpeciesEntry where
  name : String
  value : ℕ
deriving DecidableEq, Repr

/-- One slice of the monetary-breakdown pie chart. -/
structure MonetaryEntry where
  name : String
  value : ℚ
deriving DecidableEq, Repr

/-- One bar of the carbon-by-condition chart. -/
structure ConditionEntry where
  name : String
  co2 : ℚ
deriving DecidableEq, Repr

/-- One step of the `speciesCount` reduce:
`acc[tree.species] = (acc[tree.species] || 0) + 1` on a JavaScript
object modelled as an insertion-ordered association list. -/
def speciesCountStep (acc : List (String × ℕ)) (s : String) : List (String × ℕ) :=
  if acc.any (fun p => p.1 == s) then
    acc.map (fun p => if p.1 = s then (p.1, p.2 + 1) else p)
  else
    acc ++ [(s, 1)]

/-- The `speciesCount` object of the `Dashboard` stats memo, with
`Object.entries` order (key insertion order). -/
def speciesCount (trees : List (TreeData ℚ)) : List (String × ℕ) :=
  trees.foldl (fun acc t => speciesCountStep acc t.species) []

/-- Stable insertion of an entry into a list sorted by descending
count: the entry goes in front of the first element whose count does
not exceed it, as the stable JavaScript `sort((a, b) => b.value - a.value)`
would place it relative to later elements. -/
def insertDescSpecies (e : SpeciesEntry) : List SpeciesEntry → List SpeciesEntry
  | [] => [e]
  | x :: xs => if x.value ≤ e.value then e :: x :: xs else x :: insertDescSpecies e xs

/-- Stable sort by descending count, modelling the stable JavaScript
`Array.prototype.sort` with comparator `(a, b) => b.value - a.value`. -/
def sortDescSpecies (l : List SpeciesEntry) : List SpeciesEntry :=
  l.foldr insertDescSpecies []

/-- The `speciesData` sequence of the `Dashboard` stats memo. -/
def speciesData (trees : List (TreeData ℚ)) : List SpeciesEntry :=
  sortDescSpecies ((speciesCount trees).map (fun p => { name := p.1, value := p.2 }))

/-- Key list of a JavaScript object built by repeated insertion:
first-encounter order, duplicates dropped. -/
def firstOccurrences (l : List String) : List String :=
  l.foldl (fun acc s => if s ∈ acc then acc else acc ++ [s]) []

/-- Declarative description of the species-count object: each distinct
species in first-encounter order, paired with its occurrence count. -/
def speciesTally (l : List String) : List (String × ℕ) :=
  (firstOccurrences l).map (fun s => (s, l.count s))

/-- The `carbonByCondition` reduce of the `Dashboard` stats memo, the
accumulated object viewed as a total map with default 0 (absent key
and stored 0 are observationally equal under the truthiness test that
consumes it). -/
def carbonByCondition (trees : List (TreeData ℚ)) : TreeCondition → ℚ :=
  trees.foldl
    (fun acc t => fun c =>
      if c = t.condition then acc c + t.carbon.co2Sequestrated else acc c)
    (fun _ => 0)

/-- Declarative per-condition CO2 sum: total `co2Sequestrated` over
the trees of the given condition. -/
def co2SumByCondition (trees : List (TreeData ℚ)) (c : TreeCondition) : ℚ :=
  ((trees.filter (fun t => t.condition == c)).map
    (fun t => t.carbon.co2Sequestrated)).sum

/-- The fixed `conditionOrder` array of the `Dashboard`. -/
def conditionOrder : List TreeCondition :=
  [TreeCondition.Healthy, TreeCondition.Damaged, TreeCondition.Dead]

/-- The `carbonByConditionData` sequence of the `Dashboard` stats
memo: each condition in the fixed order, its summed carbon pushed
through the truthiness test and `parseFloat(toFixed(2))`, keeping only
entries with positive (rounded) value. -/
def carbonByConditionData (trees : List (TreeData ℚ)) : List ConditionEntry :=
  (conditionOrder.map (fun c =>
      { name := c.name
        co2 :=
          if carbonByCondition trees c = 0 then 0
          else toFixed2 (carbonByCondition trees c) : ConditionEntry })).filter
    (fun e => decide (0 < e.co2))

/-- The `monetaryBreakdown` sequence of the `Dashboard` stats memo:
four fixed categories with portfolio-wide sums, categories with
non-positive sums filtered out. -/
def monetaryBreakdown (trees : List (TreeData ℚ)) : List MonetaryEntry :=
  ([{ name := "Penyimpanan Karbon"
      value := trees.foldl
        (fun acc t => acc + t.ecosystemServices.annualMonetaryValue.carbon) 0 },
    { name := "Manajemen Air Hujan"
      value := trees.foldl
        (fun acc t => acc + t.ecosystemServices.annualMonetaryValue.stormwater) 0 },
    { name := "Kualitas Udara"
      value := trees.foldl
        (fun acc t => acc + t.ecosystemServices.annualMonetaryValue.airQuality) 0 },
    { name := "Penghematan Energi"
      value := trees.foldl
        (fun acc t => acc + t.ecosystemServices.annualMonetaryValue.energy) 0 }] :
      List MonetaryEntry).filter
    (fun e => decide (0 < e.value))

/-- The full summary object returned by the `Dashboard` stats memo. -/
structure DashboardStats where
  totalTrees : ℕ
  totalCarbon : ℚ
  totalStormwater : ℚ
  totalPollution : ℚ
  totalMonetaryValue : ℚ
  speciesData : List SpeciesEntry
  monetaryBreakdown : List MonetaryEntry
  carbonByConditionData : List ConditionEntry
deriving DecidableEq

/-- Embedding of the `stats` memo of the `Dashboard` component: an
explicit all-zero object for the empty collection, otherwise
reduce-computed totals and the three breakdown sequences. -/
def dashboardStats (trees : List (TreeData ℚ)) : DashboardStats :=
  if trees.isEmpty then
    { totalTrees := 0
      totalCarbon := 0
      totalStormwater := 0
      totalPollution := 0
      totalMonetaryValue := 0
      speciesData := []
      monetaryBreakdown := []
      carbonByConditionData := [] }
  else
    { totalTrees := trees.length
      totalCarbon := trees.foldl (fun acc t => acc + t.carbon.co2Sequestrated) 0
      totalStormwater := trees.foldl
        (fun acc t => acc + t.ecosystemServices.stormwaterInterceptedLiters) 0
      totalPollution := trees.foldl
        (fun acc t => acc + t.ecosystemServices.airPollutionRemovedGrams) 0
      totalMonetaryValue := trees.foldl
        (fun acc t => acc + t.ecosystemServices.annualMonetaryValue.total) 0
      speciesData := speciesData trees
      monetaryBreakdown := monetaryBreakdown trees
      carbonByConditionData := carbonByConditionData trees }

/-- Test fixture: an already-computed rational tree record with the
given species, condition and sequestrated CO2, all other numeric
fields zero. -/
def mkTreeFixture (id : ℤ) (species : String) (condition : TreeCondition)
    (co2 : ℚ) : TreeData ℚ :=
  { id := id
    species := species
    dbh := 0
    height := 0
    condition := condition
    proximityToBuilding := ProximityToBuilding.None
    notes := ""
    latitude := 0
    longitude := 0
    inventoryDate := ""
    carbon := { biomass := 0, carbonStored := 0, co2Sequestrated := co2 }
    ecosystemServices :=
      { stormwaterInterceptedLiters := 0
        airPollutionRemovedGrams := 0
        energySavingsIDR := 0
        annualMonetaryValue :=
          { total := 0, carbon := 0, stormwater := 0, airQuality := 0, energy := 0 } } }

/-- Test fixture: a raw measurement fed to `handleAddTree`. -/
def mkMeasurementFixture (species : String) (dbh height : ℝ) : NewTreeData ℝ :=
  { species := species
    dbh := dbh
    height := height
    condition := TreeCondition.Healthy
    proximityToBuilding := ProximityToBuilding.Near
    notes := ""
    latitude := 0
    longitude := 0
    inventoryDate := "2026-10-11" }

/-- Claim C1: for every dbh > 0 and height > 0, `calculateCarbonMetrics`
returns biomass = 0.0673 * (0.6 * dbh^2 * height)^0.976, carbonStored =
biomass * 0.47 and co2Sequestrated = carbonStored * 3.67 with biomass
positive, and for every dbh ≤ 0 or height ≤ 0 it returns all three
metrics exactly 0. -/
theorem calculateCarbonMetrics_correct (dbh height : ℝ) :
    (0 < dbh → 0 < height →
      (calculateCarbonMetrics dbh height).biomass
          = 0.0673 * (0.6 * dbh ^ 2 * height) ^ (0.976 : ℝ) ∧
        (calculateCarbonMetrics dbh height).carbonStored
          = (calculateCarbonMetrics dbh height).biomass * 0.47 ∧
        (calculateCarbonMetrics dbh height).co2Sequestrated
          = (calculateCarbonMetrics dbh height).carbonStored * 3.67 ∧
        0 < (calculateCarbonMetrics dbh height).biomass) ∧
      (dbh ≤ 0 ∨ height ≤ 0 →
        calculateCarbonMetrics dbh height
          = { biomass := 0, carbonStored := 0, co2Sequestrated := 0 }) := by
  constructor
  · intro hd hh
    have hcond : ¬(dbh ≤ 0 ∨ height ≤ 0) := by push_neg; exact ⟨hd, hh⟩
    have hbase : (0 : ℝ) < 0.6 * dbh ^ 2 * height :=
      mul_pos (mul_pos (by norm_num) (pow_pos hd 2)) hh
    refine ⟨?_, ?_, ?_, ?_⟩ <;>
      simp only [calculateCarbonMetrics, if_neg hcond, WOOD_DENSITY,
        CARBON_CONVERSION_FACTOR, CO2_CONVERSION_FACTOR]
    exact mul_pos (by norm_num) (Real.rpow_pos_of_pos hbase _)
  · intro hcond
    simp only [calculateCarbonMetrics, if_pos hcond]

/-- Witness for claim C1 at dbh = 50, height = 25 and at dbh = -1. -/
theorem calculateCarbonMetrics_correct_witness :
    ((calculateCarbonMetrics 50 25).biomass
        = 0.0673 * (0.6 * 50 ^ 2 * 25) ^ ((0.976 : ℝ)) ∧
      (calculateCarbonMetrics 50 25).carbonStored
        = (calculateCarbonMetrics 50 25).biomass * 0.47 ∧
      (calculateCarbonMetrics 50 25).co2Sequestrated
        = (calculateCarbonMetrics 50 25).carbonStored * 3.67 ∧
      0 < (calculateCarbonMetrics 50 25).biomass) ∧
    calculateCarbonMetrics (-1) 25
      = { biomass := 0, carbonStored := 0, co2Sequestrated := 0 } :=
  ⟨(calculateCarbonMetrics_correct 50 25).1 (by norm_num) (by norm_num),
   (calculateCarbonMetrics_correct (-1) 25).2 (Or.inl (by norm_num))⟩

/-- Claim C2: for every dbh > 0 and every proximity, the carbon
component of the monetary breakdown is priced from a second Carbon
Model call with the height ≈ dbh * 0.5 fallback, times the social cost
of carbon 0.05 USD/kg converted at the 16000 exchange rate. -/
theorem ecosystemServices_carbon_value_uses_height_fallback (dbh : ℝ)
    (p : ProximityToBuilding) (h : 0 < dbh) :
    (calculateEcosystemServices dbh p).annualMonetaryValue.carbon
      = (calculateCarbonMetrics dbh (dbh * 0.5)).co2Sequestrated * (0.05 * 16000) := by
  simp only [calculateEcosystemServices, if_neg (not_le.mpr h),
    SOCIAL_COST_OF_CARBON_PER_KG_CO2_IDR, USD_TO_IDR_RATE]

/-- Witness for claim C2 at dbh = 50 with proximity Near. -/
theorem ecosystemServices_carbon_value_uses_height_fallback_witness :
    (calculateEcosystemServices 50 ProximityToBuilding.Near).annualMonetaryValue.carbon
      = (calculateCarbonMetrics 50 (50 * 0.5)).co2Sequestrated * (0.05 * 16000) :=
  ecosystemServices_carbon_value_uses_height_fallback 50 ProximityToBuilding.Near
    (by norm_num)

/-- Claim C3: for every dbh and every proximity, the monetary total is
exactly the sum of the four components, and in the dbh ≤ 0 degenerate
case all five fields are 0. -/
theorem annualMonetaryValue_total_eq_sum (dbh : ℝ) (p : ProximityToBuilding) :
    ((calculateEcosystemServices dbh p).annualMonetaryValue.total
        = (calculateEcosystemServices dbh p).annualMonetaryValue.carbon
          + (calculateEcosystemServices dbh p).annualMonetaryValue.stormwater
          + (calculateEcosystemServices dbh p).annualMonetaryValue.airQuality
          + (calculateEcosystemServices dbh p).annualMonetaryValue.energy) ∧
      (dbh ≤ 0 →
        (calculateEcosystemServices dbh p).annualMonetaryValue
          = { total := 0, carbon := 0, stormwater := 0, airQuality := 0, energy := 0 }) := by
  constructor
  · by_cases h : dbh ≤ 0
    · simp only [calculateEcosystemServices, if_pos h]; norm_num
    · simp only [calculateEcosystemServices, if_neg h]
  · intro h
    simp only [calculateEcosystemServices, if_pos h]

/-- Witness for claim C3 at dbh = -2 with proximity None. -/
theorem annualMonetaryValue_total_eq_sum_witness :
    ((calculateEcosystemServices (-2) ProximityToBuilding.None).annualMonetaryValue.total
        = (calculateEcosystemServices (-2) ProximityToBuilding.None).annualMonetaryValue.carbon
          + (calculateEcosystemServices (-2) ProximityToBuilding.None).annualMonetaryValue.stormwater
          + (calculateEcosystemServices (-2) ProximityToBuilding.None).annualMonetaryValue.airQuality
          + (calculateEcosystemServices (-2) ProximityToBuilding.None).annualMonetaryValue.energy) ∧
    (calculateEcosystemServices (-2) ProximityToBuilding.None).annualMonetaryValue
      = { total := 0, carbon := 0, stormwater := 0, airQuality := 0, energy := 0 } :=
  ⟨(annualMonetaryValue_total_eq_sum (-2) ProximityToBuilding.None).1,
   (annualMonetaryValue_total_eq_sum (-2) ProximityToBuilding.None).2 (by norm_num)⟩

/-- Claim C6: for every dbh > 0, proximity Far or None gives zero
energy savings (Far is treated identically to None) and proximity Near
gives (10 + 0.25 * dbh) * 16000. -/
theorem energySavings_by_proximity (dbh : ℝ) (h : 0 < dbh)
    (p : ProximityToBuilding) :
    ((p = ProximityToBuilding.Far ∨ p = ProximityToBuilding.None) →
        (calculateEcosystemServices dbh p).energySavingsIDR = 0) ∧
      (p = ProximityToBuilding.Near →
        (calculateEcosystemServices dbh p).energySavingsIDR = (10 + 0.25 * dbh) * 16000) := by
  constructor
  · rintro (rfl | rfl) <;>
      simp [calculateEcosystemServices, if_neg (not_le.mpr h)]
  · rintro rfl
    simp only [calculateEcosystemServices, if_neg (not_le.mpr h), USD_TO_IDR_RATE,
      eq_self_iff_true, if_true]
    ring

/-- Witness for claim C6 at dbh = 50: Far and None give 0 and Near
gives 360000. -/
theorem energySavings_by_proximity_witness :
    (calculateEcosystemServices 50 ProximityToBuilding.Far).energySavingsIDR = 0 ∧
    (calculateEcosystemServices 50 ProximityToBuilding.None).energySavingsIDR = 0 ∧
    (calculateEcosystemServices 50 ProximityToBuilding.Near).energySavingsIDR = 360000 := by
  refine ⟨(energySavings_by_proximity 50 (by norm_num) _).1 (Or.inl rfl),
    (energySavings_by_proximity 50 (by norm_num) _).1 (Or.inr rfl), ?_⟩
  have h := (energySavings_by_proximity 50 (by norm_num) ProximityToBuilding.Near).2 rfl
  rw [h]; norm_num

/-- Claim C7: for every dbh ≤ 0 and every proximity,
`calculateEcosystemServices` returns a result with every field zero,
including the whole monetary breakdown, rather than raising an
error. -/
theorem ecosystemServices_nonpositive_dbh_all_zero (dbh : ℝ)
    (p : ProximityToBuilding) (h : dbh ≤ 0) :
    calculateEcosystemServices dbh p
      = { stormwaterInterceptedLiters := 0
          airPollutionRemovedGrams := 0
          energySavingsIDR := 0
          annualMonetaryValue :=
            { total := 0, carbon := 0, stormwater := 0, airQuality := 0, energy := 0 } } := by
  simp only [calculateEcosystemServices, if_pos h]

/-- Witness for claim C7 at dbh = -3 with proximity Near. -/
theorem ecosystemServices_nonpositive_dbh_all_zero_witness :
    calculateEcosystemServices (-3) ProximityToBuilding.Near
      = { stormwaterInterceptedLiters := 0
          airPollutionRemovedGrams := 0
          energySavingsIDR := 0
          annualMonetaryValue :=
            { total := 0, carbon := 0, stormwater := 0, airQuality := 0, energy := 0 } } :=
  ecosystemServices_nonpositive_dbh_all_zero (-3) ProximityToBuilding.Near (by norm_num)

/-- Claim C10: for every dbh and every proximity, the stormwater
interception equals 120 times the removed air pollution, since both
scale the same leaf-area estimate by 180 and 1.5 respectively and both
vanish in the degenerate branch. -/
theorem stormwater_eq_120_mul_airPollution (dbh : ℝ) (p : ProximityToBuilding) :
    (calculateEcosystemServices dbh p).stormwaterInterceptedLiters
      = 120 * (calculateEcosystemServices dbh p).airPollutionRemovedGrams := by
  by_cases h : dbh ≤ 0
  · simp only [calculateEcosystemServices, if_pos h]; norm_num
  · simp only [calculateEcosystemServices, if_neg h,
      RAINFALL_INTERCEPTION_LITERS_PER_M2_LEAF_AREA,
      POLLUTION_REMOVAL_GRAMS_PER_M2_LEAF_AREA]
    ring

/-- Membership in the key-accumulating fold: an element is in the result exactly when it is in the accumulator or in the remaining input. -/
theorem mem_foldl_firstOcc (l : List String) (acc : List String) (s : String) :
    s ∈ l.foldl (fun acc x => if x ∈ acc then acc else acc ++ [x]) acc
      ↔ s ∈ acc ∨ s ∈ l := by
  induction l generalizing acc with
  | nil => simp
  | cons x l ih =>
      rw [List.foldl_cons, ih]
      by_cases h : x ∈ acc
      · rw [if_pos h]
        simp only [List.mem_cons]
        constructor
        · tauto
        · rintro (h1 | rfl | h1)
          exacts [Or.inl h1, Or.inl h, Or.inr h1]
      · rw [if_neg h]
        simp only [List.mem_append, List.mem_cons, List.mem_singleton]
        tauto

/-- The key-accumulating fold preserves freedom from duplicates. -/
theorem nodup_foldl_firstOcc (l : List String) (acc : List String) (h : acc.Nodup) :
    (l.foldl (fun acc x => if x ∈ acc then acc else acc ++ [x]) acc).Nodup := by
  induction l generalizing acc with
  | nil => simpa
  | cons x l ih =>
      rw [List.foldl_cons]
      by_cases hx : x ∈ acc
      · rw [if_pos hx]; exact ih _ h
      · rw [if_neg hx]
        refine ih _ ?_
        simp [List.nodup_append, h, hx]

/-- Appending one element to the input extends the key list exactly when the element is new. -/
theorem firstOccurrences_append (p : List String) (x : String) :
    firstOccurrences (p ++ [x])
      = if x ∈ firstOccurrences p then firstOccurrences p
        else firstOccurrences p ++ [x] := by
  unfold firstOccurrences
  rw [List.foldl_append, List.foldl_cons, List.foldl_nil]

/-- The key list contains exactly the elements of the input. -/
theorem mem_firstOccurrences (s : String) (l : List String) :
    s ∈ firstOccurrences l ↔ s ∈ l := by
  unfold firstOccurrences
  rw [mem_foldl_firstOcc]
  simp

/-- The key list is duplicate-free. -/
theorem nodup_firstOccurrences (l : List String) : (firstOccurrences l).Nodup :=
  nodup_foldl_firstOcc l [] (by simp)

/-- One counting step applied to the tally of a prefix yields the tally of the prefix extended by the processed species. -/
theorem speciesCountStep_tally (p : List String) (x : String) :
    speciesCountStep (speciesTally p) x = speciesTally (p ++ [x]) := by
  unfold speciesCountStep speciesTally
  have hkey : (((firstOccurrences p).map (fun s => (s, p.count s))).any
      (fun q => q.1 == x)) = true ↔ x ∈ p := by
    simp [List.any_eq_true, mem_firstOccurrences]
  by_cases hx : x ∈ p
  · rw [if_pos (hkey.mpr hx), firstOccurrences_append,
      if_pos ((mem_firstOccurrences x p).mpr hx), List.map_map]
    apply List.map_congr_left
    intro s _
    by_cases hsx : s = x
    · subst hsx
      simp [List.count_append]
    · simp [Function.comp, hsx, List.count_append,
        List.count_singleton', hsx]
  · have hnot : ¬((((firstOccurrences p).map (fun s => (s, p.count s))).any
        (fun q => q.1 == x)) = true) := fun hc => hx (hkey.mp hc)
    rw [if_neg hnot, firstOccurrences_append,
      if_neg (fun hc => hx ((mem_firstOccurrences x p).mp hc)), List.map_append]
    congr 1
    · apply List.map_congr_left
      intro s hs
      have hsp : s ∈ p := (mem_firstOccurrences s p).mp hs
      have hsx : s ≠ x := fun h => hx (h ▸ hsp)
      simp [List.count_append, List.count_singleton', hsx]
    · have hcx : p.count x = 0 := List.count_eq_zero.mpr hx
      simp [List.count_append, hcx]

/-- The species-count fold computes the declarative tally. -/
theorem foldl_speciesCountStep (l : List String) :
    l.foldl speciesCountStep [] = speciesTally l := by
  induction l using List.reverseRecOn with
  | nil => rfl
  | append_singleton p x ih =>
      rw [List.foldl_append, List.foldl_cons, List.foldl_nil, ih, speciesCountStep_tally]

/-- The speciesCount object is the declarative tally of the species list: distinct species in first-encounter order with occurrence counts. -/
theorem speciesCount_eq_tally (trees : List (TreeData ℚ)) :
    speciesCount trees = speciesTally (trees.map (fun t => t.species)) := by
  unfold speciesCount
  rw [← List.foldl_map (fun t : TreeData ℚ => t.species) speciesCountStep]
  exact foldl_speciesCountStep _

/-- Insertion produces a permutation of the element consed on the list. -/
theorem insertDescSpecies_perm (e : SpeciesEntry) (l : List SpeciesEntry) :
    (insertDescSpecies e l).Perm (e :: l) := by
  induction l with
  | nil => exact List.Perm.refl _
  | cons x xs ih =>
      unfold insertDescSpecies
      by_cases h : x.value ≤ e.value
      · rw [if_pos h]
      · rw [if_neg h]
        exact (ih.cons x).trans (List.Perm.swap e x xs)

/-- The descending sort permutes its input. -/
theorem sortDescSpecies_perm (l : List SpeciesEntry) : (sortDescSpecies l).Perm l := by
  induction l with
  | nil => exact List.Perm.refl _
  | cons x xs ih =>
      unfold sortDescSpecies at *
      rw [List.foldr_cons]
      exact (insertDescSpecies_perm x _).trans (ih.cons x)

/-- Insertion preserves descending order by count. -/
theorem insertDescSpecies_sorted (e : SpeciesEntry) (l : List SpeciesEntry)
    (h : l.Pairwise (fun a b => b.value ≤ a.value)) :
    (insertDescSpecies e l).Pairwise (fun a b => b.value ≤ a.value) := by
  induction l with
  | nil => simp [insertDescSpecies]
  | cons x xs ih =>
      rcases List.pairwise_cons.mp h with ⟨hx, hxs⟩
      unfold insertDescSpecies
      by_cases hle : x.value ≤ e.value
      · rw [if_pos hle]
        refine List.pairwise_cons.mpr ⟨?_, h⟩
        intro b hb
        rcases List.mem_cons.mp hb with rfl | hb
        · exact hle
        · exact le_trans (hx b hb) hle
      · rw [if_neg hle]
        refine List.pairwise_cons.mpr ⟨?_, ih hxs⟩
        intro b hb
        rcases List.mem_cons.mp ((insertDescSpecies_perm e xs).mem_iff.mp hb) with rfl | hb
        · exact le_of_lt (Nat.lt_of_not_le hle)
        · exact hx b hb

/-- The sort output is descending by count. -/
theorem sortDescSpecies_sorted (l : List SpeciesEntry) :
    (sortDescSpecies l).Pairwise (fun a b => b.value ≤ a.value) := by
  induction l with
  | nil => simp [sortDescSpecies]
  | cons x xs ih =>
      unfold sortDescSpecies at *
      rw [List.foldr_cons]
      exact insertDescSpecies_sorted x _ ih

/-- Claim C8: speciesData is sorted in descending order of count;
every entry pairs a species occurring in the collection with its exact
case-sensitive occurrence count; every species of the collection has
an entry; species names appear at most once; and for trees with
species ["Jati", "Pinus", "Jati"] the output is exactly
[("Jati", 2), ("Pinus", 1)]. -/
theorem speciesData_grouping_sorted (trees : List (TreeData ℚ)) :
    (speciesData trees).Pairwise (fun a b => b.value ≤ a.value) ∧
      (∀ e ∈ speciesData trees,
        e.name ∈ trees.map (fun t => t.species) ∧
          e.value = (trees.map (fun t => t.species)).count e.name) ∧
      (∀ s ∈ trees.map (fun t => t.species), ∃ e ∈ speciesData trees, e.name = s) ∧
      ((speciesData trees).map (fun e => e.name)).Nodup ∧
      speciesData [mkTreeFixture 1 "Jati" TreeCondition.Healthy 0,
          mkTreeFixture 2 "Pinus" TreeCondition.Healthy 0,
          mkTreeFixture 3 "Jati" TreeCondition.Healthy 0]
        = [{ name := "Jati", value := 2 }, { name := "Pinus", value := 1 }] := by
  have hperm : (speciesData trees).Perm
      ((speciesTally (trees.map (fun t => t.species))).map
        (fun p => { name := p.1, value := p.2 : SpeciesEntry })) := by
    unfold speciesData
    rw [speciesCount_eq_tally]
    exact sortDescSpecies_perm _
  refine ⟨?_, ?_, ?_, ?_, ?_⟩
  · exact sortDescSpecies_sorted _
  · intro e he
    rcases List.mem_map.mp (hperm.mem_iff.mp he) with ⟨p, hp, hpe⟩
    unfold speciesTally at hp
    rcases List.mem_map.mp hp with ⟨s, hs, rfl⟩
    subst hpe
    exact ⟨(mem_firstOccurrences s _).mp hs, rfl⟩
  · intro s hs
    refine ⟨{ name := s, value := (trees.map (fun t => t.species)).count s }, ?_, rfl⟩
    apply hperm.mem_iff.mpr
    refine List.mem_map.mpr ⟨(s, (trees.map (fun t => t.species)).count s), ?_, rfl⟩
    unfold speciesTally
    exact List.mem_map.mpr ⟨s, (mem_firstOccurrences s _).mpr hs, rfl⟩
  · have hmapperm := hperm.map (fun e => e.name)
    have heq : (((speciesTally (trees.map (fun t => t.species))).map
        (fun p => { name := p.1, value := p.2 : SpeciesEntry })).map (fun e => e.name))
        = firstOccurrences (trees.map (fun t => t.species)) := by
      unfold speciesTally
      simp only [List.map_map]
      exact List.map_id _
    rw [heq] at hmapperm
    exact hmapperm.nodup_iff.mpr (nodup_firstOccurrences _)
  · decide


/-- The reduce that builds the carbon-by-condition object computes, for each condition, the accumulator value plus the CO2 sum over the processed trees of that condition. -/
theorem carbonByCondition_foldl_eq (l : List (TreeData ℚ)) (acc : TreeCondition → ℚ)
    (c : TreeCondition) :
    l.foldl
        (fun acc t => fun c =>
          if c = t.condition then acc c + t.carbon.co2Sequestrated else acc c)
        acc c
      = acc c + co2SumByCondition l c := by
  induction l generalizing acc with
  | nil => simp [co2SumByCondition]
  | cons t l ih =>
      rw [List.foldl_cons, ih]
      by_cases h : c = t.condition
      · simp only [co2SumByCondition, List.filter_cons, h, beq_self_eq_true, if_pos,
          List.map_cons, List.sum_cons]
        ring
      · have h' : ¬(t.condition == c) = true := by
          simp only [beq_iff_eq]; exact fun hc => h hc.symm
        simp only [co2SumByCondition, List.filter_cons, if_neg h, h', Bool.false_eq_true,
          if_false]

/-- The carbon-by-condition object maps each condition to the summed co2Sequestrated over the trees of that condition. -/
theorem carbonByCondition_eq_sum (trees : List (TreeData ℚ)) (c : TreeCondition) :
    carbonByCondition trees c = co2SumByCondition trees c := by
  have h := carbonByCondition_foldl_eq trees (fun _ => 0) c
  simpa [carbonByCondition] using h

/-- Claim C4 (amended): carbonByConditionData lists the conditions in
the fixed order Healthy, Damaged, Dead, each carrying its summed
co2Sequestrated pushed through the truthiness test and rounded to two
decimal places, keeping exactly the entries whose rounded value is
positive; for one Healthy tree with co2Sequestrated = 12.34 the output
is exactly the single entry ("Healthy", 12.34). -/
theorem carbonByConditionData_rounded_sums (trees : List (TreeData ℚ)) :
    carbonByConditionData trees
        = (conditionOrder.map (fun c =>
            { name := c.name
              co2 :=
                if co2SumByCondition trees c = 0 then 0
                else toFixed2 (co2SumByCondition trees c) : ConditionEntry })).filter
          (fun e => decide (0 < e.co2)) ∧
      carbonByConditionData [mkTreeFixture 1 "Jati" TreeCondition.Healthy (1234 / 100)]
        = [{ name := "Healthy", co2 := 1234 / 100 }] := by
  have hchar : ∀ ts : List (TreeData ℚ),
      carbonByConditionData ts
        = (conditionOrder.map (fun c =>
            { name := c.name
              co2 :=
                if co2SumByCondition ts c = 0 then 0
                else toFixed2 (co2SumByCondition ts c) : ConditionEntry })).filter
          (fun e => decide (0 < e.co2)) := by
    intro ts
    unfold carbonByConditionData
    congr 1
    apply List.map_congr_left
    intro c _
    rw [carbonByCondition_eq_sum]
  refine ⟨hchar trees, ?_⟩
  rw [hchar]
  have hfix : toFixed2 (1234 / 100) = 1234 / 100 := by
    unfold toFixed2
    rw [show ((1234:ℚ)/100 * 100 + 1/2) = 2469/2 by norm_num]
    rw [show (⌊(2469:ℚ)/2⌋ = 1234) from by rw [Int.floor_eq_iff]; norm_num]
    norm_num
  have hsum : co2SumByCondition [mkTreeFixture 1 "Jati" TreeCondition.Healthy (1234 / 100)]
      TreeCondition.Healthy = 1234 / 100 := by
    simp [co2SumByCondition, mkTreeFixture]
  have hsum2 : co2SumByCondition [mkTreeFixture 1 "Jati" TreeCondition.Healthy (1234 / 100)]
      TreeCondition.Damaged = 0 := by
    simp [co2SumByCondition, mkTreeFixture]
  have hsum3 : co2SumByCondition [mkTreeFixture 1 "Jati" TreeCondition.Healthy (1234 / 100)]
      TreeCondition.Dead = 0 := by
    simp [co2SumByCondition, mkTreeFixture]
  simp only [conditionOrder, List.map_cons, List.map_nil, hsum, hsum2, hsum3, hfix,
    TreeCondition.name]
  norm_num [List.filter_cons, List.filter_nil]

/-- Counterexample to claim C4 as stated: a single Healthy tree with
co2Sequestrated = 0.001 has positive summed carbon for Healthy, yet
carbonByConditionData is empty, because the code rounds the sum to two
decimals (0.00) before the positivity filter; so the claimed exact-sum
entry for every positive-sum condition does not exist. -/
theorem carbonByConditionData_drops_small_positive_sum :
    0 < co2SumByCondition [mkTreeFixture 1 "Jati" TreeCondition.Healthy (1 / 1000)]
        TreeCondition.Healthy ∧
      carbonByConditionData [mkTreeFixture 1 "Jati" TreeCondition.Healthy (1 / 1000)] = [] := by
  have hsum : co2SumByCondition [mkTreeFixture 1 "Jati" TreeCondition.Healthy (1 / 1000)]
      TreeCondition.Healthy = 1 / 1000 := by
    simp [co2SumByCondition, mkTreeFixture]
  have hsum2 : co2SumByCondition [mkTreeFixture 1 "Jati" TreeCondition.Healthy (1 / 1000)]
      TreeCondition.Damaged = 0 := by
    simp [co2SumByCondition, mkTreeFixture]
  have hsum3 : co2SumByCondition [mkTreeFixture 1 "Jati" TreeCondition.Healthy (1 / 1000)]
      TreeCondition.Dead = 0 := by
    simp [co2SumByCondition, mkTreeFixture]
  have hfix : toFixed2 (1 / 1000) = 0 := by
    unfold toFixed2
    rw [show ((1:ℚ)/1000 * 100 + 1/2) = 3/5 by norm_num]
    rw [show (⌊(3:ℚ)/5⌋ = 0) from by rw [Int.floor_eq_iff]; norm_num]
    norm_num
  constructor
  · rw [hsum]; norm_num
  · unfold carbonByConditionData
    have h1 : carbonByCondition [mkTreeFixture 1 "Jati" TreeCondition.Healthy (1 / 1000)]
        TreeCondition.Healthy = 1 / 1000 := by rw [carbonByCondition_eq_sum, hsum]
    have h2 : carbonByCondition [mkTreeFixture 1 "Jati" TreeCondition.Healthy (1 / 1000)]
        TreeCondition.Damaged = 0 := by rw [carbonByCondition_eq_sum, hsum2]
    have h3 : carbonByCondition [mkTreeFixture 1 "Jati" TreeCondition.Healthy (1 / 1000)]
        TreeCondition.Dead = 0 := by rw [carbonByCondition_eq_sum, hsum3]
    simp only [conditionOrder, List.map_cons, List.map_nil, h1, h2, h3, hfix,
      TreeCondition.name]
    norm_num [List.filter_cons, List.filter_nil]

/-- Claim C9: for the empty tree collection the dashboard summary has
every total equal to 0 and every breakdown sequence empty, produced by
the explicit zero-value branch. -/
theorem dashboardStats_empty_all_zero :
    dashboardStats []
      = { totalTrees := 0
          totalCarbon := 0
          totalStormwater := 0
          totalPollution := 0
          totalMonetaryValue := 0
          speciesData := []
          monetaryBreakdown := []
          carbonByConditionData := [] } := rfl

/-- Claim C5 (code-bug evidence): two record-assembly calls whose
Date.now() readings fall in the same millisecond (both 5 here) produce
records with identical identifiers: the session id list is [5, 5],
which is not pairwise distinct, violating the uniqueness contract. -/
theorem addTreeSession_same_millisecond_duplicate_ids :
    (addTreeSession [(5, mkMeasurementFixture "Jati" 50 25),
        (5, mkMeasurementFixture "Pinus" 30 12)]).map (fun t => t.id) = [5, 5] ∧
      ¬((addTreeSession [(5, mkMeasurementFixture "Jati" 50 25),
          (5, mkMeasurementFixture "Pinus" 30 12)]).map (fun t => t.id)).Nodup := by
  have h : (addTreeSession [(5, mkMeasurementFixture "Jati" 50 25),
      (5, mkMeasurementFixture "Pinus" 30 12)]).map (fun t => t.id) = [5, 5] := rfl
  refine ⟨h, ?_⟩
  rw [h]
  decide


/-- Witness for claim C8: applying the grouping theorem to the
three-tree example at the concrete entry ("Jati", 2) and at the
concrete species "Pinus". -/
theorem speciesData_grouping_sorted_witness :
    (({ name := "Jati", value := 2 } : SpeciesEntry).name
        ∈ ([mkTreeFixture 1 "Jati" TreeCondition.Healthy 0,
            mkTreeFixture 2 "Pinus" TreeCondition.Healthy 0,
            mkTreeFixture 3 "Jati" TreeCondition.Healthy 0].map (fun t => t.species)) ∧
      ({ name := "Jati", value := 2 } : SpeciesEntry).value
        = ([mkTreeFixture 1 "Jati" TreeCondition.Healthy 0,
            mkTreeFixture 2 "Pinus" TreeCondition.Healthy 0,
            mkTreeFixture 3 "Jati" TreeCondition.Healthy 0].map (fun t => t.species)).count
            ({ name := "Jati", value := 2 } : SpeciesEntry).name) ∧
      ∃ e ∈ speciesData [mkTreeFixture 1 "Jati" TreeCondition.Healthy 0,
          mkTreeFixture 2 "Pinus" TreeCondition.Healthy 0,
          mkTreeFixture 3 "Jati" TreeCondition.Healthy 0], e.name = "Pinus" :=
  ⟨(speciesData_grouping_sorted [mkTreeFixture 1 "Jati" TreeCondition.Healthy 0,
      mkTreeFixture 2 "Pinus" TreeCondition.Healthy 0,
      mkTreeFixture 3 "Jati" TreeCondition.Healthy 0]).2.1
      { name := "Jati", value := 2 } (by decide),
   (speciesData_grouping_sorted [mkTreeFixture 1 "Jati" TreeCondition.Healthy 0,
      mkTreeFixture 2 "Pinus" TreeCondition.Healthy 0,
      mkTreeFixture 3 "Jati" TreeCondition.Healthy 0]).2.2.1
      "Pinus" (by decide)⟩

end JagaPohon
